import Mathlib

/-!
# stock-predictor: the report-generation pipeline of `backend/server.js`

A shallow embedding of the two request handlers of `backend/server.js`
(`POST /api/stock-data`, `POST /api/ai-report`) and of
`generateFallbackAnalysis`, followed by theorems about them.

Modelling conventions.

* Numbers are exact rationals. A JavaScript division can leave the rationals
  (`x / 0`), so the period change is a `JsNumber`: a rational, one of the two
  infinities, or `NaN`. Signed zero and rounding of binary64 are not modelled.
* Objects exchanged between the handlers are records with optional fields
  (`undefined` is `none`); truthiness of strings and arrays follows JavaScript.
* Everything the network does is given data: the outcome of a `fetch` is an
  `Except String _` whose error is the `message` of the thrown exception.
-/

namespace StockPredictor

/-! ## Numbers -/

/-- The value of a JavaScript numeric expression over exact rationals. -/
inductive JsNumber where
  | finite (q : ℚ)
  | posInf
  | negInf
  | nan
  deriving DecidableEq

namespace JsNumber

/-- The quotient `a / b` of two finite numbers; a zero divisor gives an infinity
of the sign of `a`, and `0 / 0` is `NaN`. -/
def div (a b : ℚ) : JsNumber :=
  if b ≠ 0 then finite (a / b)
  else if 0 < a then posInf
  else if a < 0 then negInf
  else nan

/-- The product `x * k` for a positive finite constant `k`. -/
def mulPos (x : JsNumber) (k : ℚ) : JsNumber :=
  match x with
  | finite q => finite (q * k)
  | posInf => posInf
  | negInf => negInf
  | nan => nan

/-- The comparison `x > k` against a finite constant; `NaN` compares false. -/
def gt (x : JsNumber) (k : ℚ) : Bool :=
  match x with
  | finite q => decide (k < q)
  | posInf => true
  | negInf => false
  | nan => false

/-- The builtin `Math.abs`. -/
def abs (x : JsNumber) : JsNumber :=
  match x with
  | finite q => finite |q|
  | posInf => posInf
  | negInf => posInf
  | nan => nan

/-- The builtin `Number.prototype.toFixed(1)`: the nearest multiple of one tenth,
the larger one on a tie, printed with one fractional digit; a negative number is
printed as a minus sign followed by its absolute value. Values that are not
finite print their name. The branch of the builtin for magnitudes of `10^21`
and more prints a binary64 shortest representation, which exact arithmetic does
not have; the digit path is used throughout. -/
def toFixed1 (x : JsNumber) : String :=
  match x with
  | finite q =>
      let s := if q < 0 then "-" else ""
      let n := (⌊|q| * 10 + 1 / 2⌋).toNat
      s ++ Nat.repr (n / 10) ++ "." ++ Nat.repr (n % 10)
  | posInf => "Infinity"
  | negInf => "-Infinity"
  | nan => "NaN"

end JsNumber

/-! ## Data model -/

/-- One daily aggregate bar of the quote API (`o`pen, `c`lose, `h`igh, `l`ow,
`v`olume, `t`imestamp). -/
structure PriceBar where
  o : ℚ
  c : ℚ
  h : ℚ
  l : ℚ
  v : ℚ
  t : Int
  deriving DecidableEq

/-- An element of `stockData`: the object built per ticker by
`/api/stock-data` and read by `generateFallbackAnalysis`. A field that is
`undefined` is `none`. -/
structure TickerResult where
  ticker : String
  error : Option String
  results : Option (List PriceBar)
  status : Option String
  deriving DecidableEq

/-- The object literal `{ ticker, results, status }` (server.js 48-52). -/
def TickerResult.success (ticker : String) (results : List PriceBar)
    (status : Option String) : TickerResult :=
  { ticker := ticker, error := none, results := some results, status := status }

/-- The object literal `{ ticker, error }` (server.js 55-58). -/
def TickerResult.failure (ticker : String) (reason : String) : TickerResult :=
  { ticker := ticker, error := some reason, results := none, status := none }

/-- JavaScript truthiness of an optional string: defined and not empty. -/
def truthyString (s : Option String) : Bool :=
  match s with
  | none => false
  | some t => t ≠ ""

/-- Template interpolation of an optional string. -/
def interpolate (s : Option String) : String :=
  match s with
  | none => "undefined"
  | some t => t

/-! ## `generateFallbackAnalysis` (server.js 129-160) -/

/-- The initial value of `analysis` (server.js 130). -/
def introText : String :=
  "Hey there, trading superstar! \u00f0\u0178\u0161\u20ac Here's what the numbers are whispering:\n\n"

/-- The text appended after the loop (server.js 158). -/
def closingText : String :=
  "Remember: Markets are wild beasts! This AI is having fun with your data, but always do your homework before making moves! \u00f0\u0178\u2019\u00b0\u00f0\u0178\u017d\u00af"

/-- The template of server.js 134. -/
def failureLine (ticker : String) (error : Option String) : String :=
  "\u00e2\u0152 Couldn't fetch data for " ++ ticker ++ " - " ++ interpolate error ++ "\n\n"

/-- The template of server.js 147. -/
def surgeLine (ticker : String) (change : JsNumber) : String :=
  "\u00f0\u0178\u201d\u00a5 " ++ ticker ++ " is absolutely crushing it with a "
    ++ change.toFixed1
    ++ "% surge! This baby's got momentum - HOLD tight or BUY more if you're feeling brave!\n\n"

/-- The template of server.js 149. -/
def steadyLine (ticker : String) (change : JsNumber) : String :=
  "\u00f0\u0178\u201c\u02c6 " ++ ticker ++ " showing steady gains at "
    ++ change.toFixed1
    ++ "%. Not bad, not bad! HOLD your position and watch it climb.\n\n"

/-- The template of server.js 151. -/
def dipLine (ticker : String) (change : JsNumber) : String :=
  "\u00f0\u0178\u201c\u2030 " ++ ticker ++ " dipped "
    ++ change.abs.toFixed1
    ++ "% - could be your golden buying opportunity! HOLD or BUY the dip!\n\n"

/-- The template of server.js 153. -/
def declineLine (ticker : String) (change : JsNumber) : String :=
  "\u00e2\u0161\u00a0\u00ef\u00b8 " ++ ticker ++ " took a hit with "
    ++ change.abs.toFixed1
    ++ "% down. Time to think: HOLD for the comeback or SELL to protect your portfolio?\n\n"

/-- The expression `((lastDay.c - firstDay.o) / firstDay.o) * 100` (server.js 144). -/
def periodChange (firstDay lastDay : PriceBar) : JsNumber :=
  (JsNumber.div (lastDay.c - firstDay.o) firstDay.o).mulPos 100

/-- The callback of `stockDataArray.forEach` (server.js 132-156) as a function
from the value of `analysis` before the call to its value after. -/
def forEachCallback (analysis : String) (data : TickerResult) : String :=
  if truthyString data.error then
    analysis ++ failureLine data.ticker data.error
  else
    let ticker := data.ticker
    match data.results with
    | none => analysis
    | some results =>
      if 0 < results.length then
        match results[0]?, results[results.length - 1]? with
        | some firstDay, some lastDay =>
          let change := periodChange firstDay lastDay
          if change.gt 2 then analysis ++ surgeLine ticker change
          else if change.gt 0 then analysis ++ steadyLine ticker change
          else if change.gt (-2) then analysis ++ dipLine ticker change
          else analysis ++ declineLine ticker change
        | _, _ => analysis
      else analysis

/-- The function `generateFallbackAnalysis` (server.js 129-160). -/
def generateFallbackAnalysis (stockDataArray : List TickerResult) : String :=
  stockDataArray.foldl forEachCallback introText ++ closingText


/-! ## HTTP plumbing shared by the two handlers -/

/-- A value of a request body field, as far as the guards of the handlers look
at it. An array holds ticker symbols; an object is not inspected. -/
inductive JsValue where
  | undefined
  | null
  | bool (b : Bool)
  | number (q : ℚ)
  | string (s : String)
  | array (items : List String)
  | object
  deriving DecidableEq

namespace JsValue

/-- JavaScript truthiness. -/
def truthy (v : JsValue) : Bool :=
  match v with
  | undefined => false
  | null => false
  | bool b => b
  | number q => q ≠ 0
  | string s => s ≠ ""
  | array _ => true
  | object => true

/-- The builtin `Array.isArray`. -/
def isArray (v : JsValue) : Bool :=
  match v with
  | array _ => true
  | _ => false

end JsValue

/-- The JSON document a handler sends. -/
inductive ResponseBody where
  | error (message : String)
  | stockData (items : List TickerResult)
  | report (text : String)
  deriving DecidableEq

/-- What a handler did: the status and body it sent, and the URLs it fetched from
the quote API, in the order of the calls. -/
structure HandlerResult where
  status : Nat
  body : ResponseBody
  fetched : List String
  deriving DecidableEq

/-! ## `POST /api/stock-data` (server.js 24-67) -/

/-- The parsed body of a quote API response, typed by the schema of that API:
`results` is an array of bars when present. -/
structure QuoteBody where
  results : Option (List PriceBar)
  status : Option String
  deriving DecidableEq

/-- What `fetch(url)` resolved to: `response.ok`, `response.status`, and the
outcome of `response.json()`, an error being the message of the exception. -/
structure QuoteResponse where
  ok : Bool
  status : Nat
  json : Except String QuoteBody

/-- The body of `POST /api/stock-data`. -/
structure StockDataRequest where
  tickers : JsValue
  startDate : Option String
  endDate : Option String

/-- The template of server.js 34. -/
def quoteUrl (apiKey startDate endDate : Option String) (ticker : String) : String :=
  "https://api.polygon.io/v2/aggs/ticker/" ++ ticker ++ "/range/1/day/"
    ++ interpolate startDate ++ "/" ++ interpolate endDate
    ++ "?adjusted=true&sort=asc&apikey=" ++ interpolate apiKey

/-- The `try` block of the per-ticker callback (server.js 33-52): the object it
returns, or the message of the exception that leaves it. `outcome` is what
`fetch(url)` did: it threw, or it resolved to a response. -/
def tryFetchTicker (ticker : String) (outcome : Except String QuoteResponse) :
    Except String TickerResult :=
  match outcome with
  | .error message => .error message
  | .ok response =>
    match response.json with
    | .error message => .error message
    | .ok data =>
      if !response.ok then
        .error ("Failed to fetch data for " ++ ticker ++ ": " ++ Nat.repr response.status)
      else
        match data.results with
        | none => .error ("No data available for " ++ ticker)
        | some results =>
          if results.length = 0 then .error ("No data available for " ++ ticker)
          else .ok (TickerResult.success ticker results data.status)

/-- The per-ticker callback of `tickers.map` (server.js 32-60): the `try` block
and its `catch`, which turns the exception into `{ ticker, error: error.message }`. -/
def fetchTicker (ticker : String) (outcome : Except String QuoteResponse) : TickerResult :=
  match tryFetchTicker ticker outcome with
  | .ok result => result
  | .error message => TickerResult.failure ticker message

/-- The handler of `POST /api/stock-data` (server.js 24-67). `network i` is the
outcome of the `fetch` issued for the ticker at position `i`. -/
def stockDataHandler (apiKey : Option String) (network : Nat → Except String QuoteResponse)
    (body : StockDataRequest) : HandlerResult :=
  if !body.tickers.truthy || !body.tickers.isArray then
    { status := 400, body := .error "Invalid tickers provided", fetched := [] }
  else
    match body.tickers with
    | .array tickers =>
      { status := 200
        body := .stockData (tickers.mapIdx fun i ticker => fetchTicker ticker (network i))
        fetched := tickers.map (quoteUrl apiKey body.startDate body.endDate) }
    | _ => { status := 500, body := .error "Failed to fetch stock data", fetched := [] }

/-! ## `POST /api/ai-report` (server.js 70-126) -/

/-- The text the callback appends for one element: its value on an empty `analysis`. -/
def lineOf (data : TickerResult) : String :=
  forEachCallback "" data

/-- The callback emits `line` for `data`: whatever `analysis` holds, the call
extends it by exactly `line`. -/
def Emits (data : TickerResult) (line : String) : Prop :=
  ∀ analysis : String, forEachCallback analysis data = analysis ++ line

/-- The `stockData` array a handler sent, if it sent one. -/
def sentStockData (r : HandlerResult) : Option (List TickerResult) :=
  match r.body with
  | .stockData items => some items
  | _ => none

/-- A bar with the given open and close, the other fields being zero. -/
def bar (o c : ℚ) : PriceBar :=
  { o := o, c := c, h := 0, l := 0, v := 0, t := 0 }

/-- The first four characters of a text. -/
def head4 (s : String) : List Char :=
  s.data.take 4

/-! ## Lemmas -/

theorem forEachCallback_append (analysis : String) (data : TickerResult) :
    forEachCallback analysis data = analysis ++ lineOf data := by
  unfold lineOf forEachCallback
  split
  · simp
  · split
    · simp
    · split
      · split
        · simp only []
          split_ifs <;> simp
        · simp
      · simp

theorem emits_iff (data : TickerResult) (line : String) :
    Emits data line ↔ lineOf data = line := by
  constructor
  · intro h
    have := h ""
    simpa [lineOf] using this
  · intro h analysis
    rw [forEachCallback_append, h]

theorem join_cons (s : String) (ss : List String) :
    String.join (s :: ss) = s ++ String.join ss := by
  apply String.ext
  simp [String.data_join]

theorem foldl_forEachCallback (xs : List TickerResult) (analysis : String) :
    xs.foldl forEachCallback analysis = analysis ++ String.join (xs.map lineOf) := by
  induction xs generalizing analysis with
  | nil => simp [String.join]
  | cons x xs ih =>
    rw [List.foldl_cons, ih, forEachCallback_append, List.map_cons, join_cons,
      String.append_assoc]

theorem generateFallbackAnalysis_eq (xs : List TickerResult) :
    generateFallbackAnalysis xs
      = introText ++ String.join (xs.map lineOf) ++ closingText := by
  unfold generateFallbackAnalysis
  rw [foldl_forEachCallback]

theorem lineOf_success (ticker : String) (status : Option String) (bars : List PriceBar)
    (first last : PriceBar) (hf : bars.head? = some first) (hl : bars.getLast? = some last) :
    lineOf (TickerResult.success ticker bars status)
      = if (periodChange first last).gt 2 then surgeLine ticker (periodChange first last)
        else if (periodChange first last).gt 0 then steadyLine ticker (periodChange first last)
        else if (periodChange first last).gt (-2) then dipLine ticker (periodChange first last)
        else declineLine ticker (periodChange first last) := by
  have hlen : 0 < bars.length := by
    cases bars with
    | nil => simp at hf
    | cons b bs => simp
  rw [List.head?_eq_getElem?] at hf
  rw [List.getLast?_eq_getElem?] at hl
  unfold lineOf forEachCallback
  simp only [TickerResult.success, truthyString, hlen, hf, hl]
  simp

theorem lineOf_success_nil (ticker : String) (status : Option String) :
    lineOf (TickerResult.success ticker [] status) = "" := by
  simp [lineOf, forEachCallback, TickerResult.success, truthyString]

theorem lineOf_failure (ticker reason : String) (h : reason ≠ "") :
    lineOf (TickerResult.failure ticker reason) = failureLine ticker (some reason) := by
  simp [lineOf, forEachCallback, TickerResult.failure, truthyString, h]

theorem lineOf_failure_empty (ticker : String) :
    lineOf (TickerResult.failure ticker "") = "" := by
  simp [lineOf, forEachCallback, TickerResult.failure, truthyString]

theorem periodChange_finite (first last : PriceBar) (ho : first.o ≠ 0) :
    periodChange first last = .finite ((last.c - first.o) / first.o * 100) := by
  simp [periodChange, JsNumber.div, JsNumber.mulPos, ho]

theorem periodChange_congr (first last single : PriceBar) (ho : single.o = first.o)
    (hc : single.c = last.c) : periodChange single single = periodChange first last := by
  simp [periodChange, ho, hc]

/-! ### The templates begin differently -/

theorem head4_append (p r : String) (h : 4 ≤ p.length) : head4 (p ++ r) = head4 p := by
  unfold head4
  rw [String.data_append]
  exact List.take_append_of_le_length h

theorem ne_of_head4 {a b : String} (h : head4 a ≠ head4 b) : a ≠ b :=
  fun hab => h (congrArg head4 hab)

theorem head4_failureLine (t : String) (e : Option String) :
    head4 (failureLine t e) = head4 "\u00e2\u0152 C" := by
  simp only [failureLine, String.append_assoc]
  rw [head4_append _ _ (by decide)]
  decide

theorem head4_surgeLine (t : String) (c : JsNumber) :
    head4 (surgeLine t c) = head4 "\u00f0\u0178\u201d\u00a5" := by
  simp only [surgeLine, String.append_assoc]
  rw [head4_append _ _ (by decide)]
  decide

theorem head4_steadyLine (t : String) (c : JsNumber) :
    head4 (steadyLine t c) = head4 "\u00f0\u0178\u201c\u02c6" := by
  simp only [steadyLine, String.append_assoc]
  rw [head4_append _ _ (by decide)]
  decide

theorem head4_dipLine (t : String) (c : JsNumber) :
    head4 (dipLine t c) = head4 "\u00f0\u0178\u201c\u2030" := by
  simp only [dipLine, String.append_assoc]
  rw [head4_append _ _ (by decide)]
  decide

theorem head4_declineLine (t : String) (c : JsNumber) :
    head4 (declineLine t c) = head4 "\u00e2\u0161\u00a0\u00ef" := by
  simp only [declineLine, String.append_assoc]
  rw [head4_append _ _ (by decide)]
  decide

theorem failure_ne_surge (t u : String) (e : Option String) (d : JsNumber) :
    failureLine t e ≠ surgeLine u d :=
  ne_of_head4 (by rw [head4_failureLine, head4_surgeLine]; decide)

theorem failure_ne_steady (t u : String) (e : Option String) (d : JsNumber) :
    failureLine t e ≠ steadyLine u d :=
  ne_of_head4 (by rw [head4_failureLine, head4_steadyLine]; decide)

theorem failure_ne_dip (t u : String) (e : Option String) (d : JsNumber) :
    failureLine t e ≠ dipLine u d :=
  ne_of_head4 (by rw [head4_failureLine, head4_dipLine]; decide)

theorem failure_ne_decline (t u : String) (e : Option String) (d : JsNumber) :
    failureLine t e ≠ declineLine u d :=
  ne_of_head4 (by rw [head4_failureLine, head4_declineLine]; decide)

theorem failureLine_ne_empty (t : String) (e : Option String) : failureLine t e ≠ "" :=
  ne_of_head4 (by rw [head4_failureLine]; decide)

theorem surgeLine_ne_empty (t : String) (c : JsNumber) : surgeLine t c ≠ "" :=
  ne_of_head4 (by rw [head4_surgeLine]; decide)

theorem steadyLine_ne_empty (t : String) (c : JsNumber) : steadyLine t c ≠ "" :=
  ne_of_head4 (by rw [head4_steadyLine]; decide)

theorem dipLine_ne_empty (t : String) (c : JsNumber) : dipLine t c ≠ "" :=
  ne_of_head4 (by rw [head4_dipLine]; decide)

theorem declineLine_ne_empty (t : String) (c : JsNumber) : declineLine t c ≠ "" :=
  ne_of_head4 (by rw [head4_declineLine]; decide)

/-- The line of a success with a non-zero first open, by the value of the change. -/
theorem lineOf_success_finite (ticker : String) (status : Option String) (bars : List PriceBar)
    (first last : PriceBar) (hf : bars.head? = some first) (hl : bars.getLast? = some last)
    (ho : first.o ≠ 0) :
    lineOf (TickerResult.success ticker bars status)
      = if 2 < (last.c - first.o) / first.o * 100 then
          surgeLine ticker (.finite ((last.c - first.o) / first.o * 100))
        else if 0 < (last.c - first.o) / first.o * 100 then
          steadyLine ticker (.finite ((last.c - first.o) / first.o * 100))
        else if -2 < (last.c - first.o) / first.o * 100 then
          dipLine ticker (.finite ((last.c - first.o) / first.o * 100))
        else declineLine ticker (.finite ((last.c - first.o) / first.o * 100)) := by
  rw [lineOf_success ticker status bars first last hf hl, periodChange_finite first last ho]
  simp only [JsNumber.gt, decide_eq_true_eq]

theorem toFixed1_nonneg (q : ℚ) (n : ℕ) (h0 : 0 ≤ q) (hlo : (n : ℚ) ≤ q * 10 + 1 / 2)
    (hhi : q * 10 + 1 / 2 < (n : ℚ) + 1) :
    (JsNumber.finite q).toFixed1 = Nat.repr (n / 10) ++ "." ++ Nat.repr (n % 10) := by
  have hfl : ⌊|q| * 10 + 1 / 2⌋ = (n : ℤ) := by
    rw [abs_of_nonneg h0, Int.floor_eq_iff]
    exact ⟨by exact_mod_cast hlo, by exact_mod_cast hhi⟩
  unfold JsNumber.toFixed1
  simp only [hfl, if_neg (not_lt.mpr h0), Int.toNat_ofNat]
  simp

theorem lineOf_congr_single (ticker : String) (status status1 : Option String)
    (bars : List PriceBar) (first last single : PriceBar)
    (hf : bars.head? = some first) (hl : bars.getLast? = some last)
    (ho : single.o = first.o) (hc : single.c = last.c) :
    lineOf (TickerResult.success ticker bars status)
      = lineOf (TickerResult.success ticker [single] status1) := by
  rw [lineOf_success ticker status bars first last hf hl,
    lineOf_success ticker status1 [single] single single rfl rfl,
    periodChange_congr first last single ho hc]

theorem generateFallbackAnalysis_congr (xs ys : List TickerResult) (s t : TickerResult)
    (h : lineOf s = lineOf t) :
    generateFallbackAnalysis (xs ++ [s] ++ ys) = generateFallbackAnalysis (xs ++ [t] ++ ys) := by
  simp [generateFallbackAnalysis_eq, h]

theorem join_map_append (xs ys : List TickerResult) :
    String.join ((xs ++ ys).map lineOf)
      = String.join (xs.map lineOf) ++ String.join (ys.map lineOf) := by
  induction xs with
  | nil => simp [String.join]
  | cons x xs ih => simp only [List.cons_append, List.map_cons, join_cons, ih, String.append_assoc]

/-! ## The bands of `generateFallbackAnalysis` -/

/-- C3. The report depends on the bars of a success only through the first open
and the last close: a success with bars `b1..bn` (`n ≥ 1`) makes the callback
produce the same text as the same ticker with any single bar whose open is
`b1.o` and whose close is `bn.c`, on every `analysis` and inside every report. -/
theorem change_uses_first_open_last_close (ticker : String) (status status1 : Option String)
    (bars : List PriceBar) (first last single : PriceBar)
    (hf : bars.head? = some first) (hl : bars.getLast? = some last)
    (ho : single.o = first.o) (hc : single.c = last.c) :
    (∀ analysis : String,
      forEachCallback analysis (TickerResult.success ticker bars status)
        = forEachCallback analysis (TickerResult.success ticker [single] status1)) ∧
    (∀ xs ys : List TickerResult,
      generateFallbackAnalysis (xs ++ [TickerResult.success ticker bars status] ++ ys)
        = generateFallbackAnalysis (xs ++ [TickerResult.success ticker [single] status1] ++ ys)) := by
  have h := lineOf_congr_single ticker status status1 bars first last single hf hl ho hc
  constructor
  · intro analysis
    rw [forEachCallback_append, forEachCallback_append, h]
  · intro xs ys
    exact generateFallbackAnalysis_congr xs ys _ _ h

/-- C3, on three bars whose intermediate values, highs, lows, volumes and
timestamps all differ from those of the single bar. -/
theorem change_uses_first_open_last_close_witness :
    generateFallbackAnalysis
        [TickerResult.success "AAPL"
          [{ o := 100, c := 50, h := 120, l := 40, v := 1000, t := 1 },
           { o := 70, c := 80, h := 90, l := 60, v := 2000, t := 2 },
           { o := 90, c := 103, h := 110, l := 85, v := 3000, t := 3 }] (some "OK")]
      = generateFallbackAnalysis [TickerResult.success "AAPL" [bar 100 103] none] :=
  (change_uses_first_open_last_close "AAPL" (some "OK") none
    [{ o := 100, c := 50, h := 120, l := 40, v := 1000, t := 1 },
     { o := 70, c := 80, h := 90, l := 60, v := 2000, t := 2 },
     { o := 90, c := 103, h := 110, l := 85, v := 3000, t := 3 }]
    { o := 100, c := 50, h := 120, l := 40, v := 1000, t := 1 }
    { o := 90, c := 103, h := 110, l := 85, v := 3000, t := 3 }
    (bar 100 103) rfl rfl rfl rfl).2 [] []

/-- C4. The report is the introductory text, then the texts the callback appends
for the elements in input order (each a function of its element alone), then the
closing text; so the body of `xs ++ ys` is the body of `xs` followed by the body
of `ys`. For AAPL at +3.1% and TSLA at -0.4% the report is the introduction, the
surge line of AAPL, the minor-dip line of TSLA and the closing text. -/
theorem report_is_concatenation_of_lines :
    (∀ (analysis : String) (data : TickerResult),
      forEachCallback analysis data = analysis ++ lineOf data) ∧
    (∀ xs : List TickerResult,
      generateFallbackAnalysis xs
        = introText ++ String.join (xs.map lineOf) ++ closingText) ∧
    (∀ xs ys : List TickerResult,
      generateFallbackAnalysis (xs ++ ys)
        = introText ++ (String.join (xs.map lineOf) ++ String.join (ys.map lineOf))
            ++ closingText) ∧
    generateFallbackAnalysis
        [TickerResult.success "AAPL" [bar 100 101, bar 102 (1031 / 10)] (some "OK"),
         TickerResult.success "TSLA" [bar 250 249] (some "OK")]
      = introText
        ++ "\u00f0\u0178\u201d\u00a5 AAPL is absolutely crushing it with a 3.1% surge! This baby's got momentum - HOLD tight or BUY more if you're feeling brave!\n\n"
        ++ "\u00f0\u0178\u201c\u2030 TSLA dipped 0.4% - could be your golden buying opportunity! HOLD or BUY the dip!\n\n"
        ++ closingText := by
  refine ⟨forEachCallback_append, generateFallbackAnalysis_eq, fun xs ys => ?_, ?_⟩
  · rw [generateFallbackAnalysis_eq, join_map_append]
  · have h1 : lineOf (TickerResult.success "AAPL" [bar 100 101, bar 102 (1031 / 10)] (some "OK"))
        = surgeLine "AAPL" (.finite (31 / 10)) := by
      rw [lineOf_success_finite "AAPL" (some "OK") [bar 100 101, bar 102 (1031 / 10)] (bar 100 101) (bar 102 (1031 / 10)) rfl rfl
        (by norm_num [bar])]
      norm_num [bar]
    have h2 : lineOf (TickerResult.success "TSLA" [bar 250 249] (some "OK"))
        = dipLine "TSLA" (.finite (-2 / 5)) := by
      rw [lineOf_success_finite "TSLA" (some "OK") [bar 250 249] (bar 250 249) (bar 250 249) rfl rfl
        (by norm_num [bar])]
      norm_num [bar]
    have t1 : (JsNumber.finite (31 / 10)).toFixed1 = "3.1" := by
      rw [toFixed1_nonneg (31 / 10) 31 (by norm_num) (by norm_num) (by norm_num)]
      decide
    have t2 : (JsNumber.finite (-2 / 5)).abs.toFixed1 = "0.4" := by
      have : |(-2 / 5 : ℚ)| = 2 / 5 := by rw [abs_of_neg (by norm_num)]; norm_num
      rw [JsNumber.abs, this,
        toFixed1_nonneg (2 / 5) 4 (by norm_num) (by norm_num) (by norm_num)]
      decide
    rw [generateFallbackAnalysis_eq]
    simp only [List.map_cons, List.map_nil, join_cons, h1, h2, surgeLine, dipLine, t1, t2]
    rfl

/-- C5, as the code has it. A failure whose reason is not the empty string makes
the callback emit exactly the apology line, which names the ticker and the
reason; that line is not empty and is none of the four band lines; alone in the
input it gives the introduction, the apology line and the closing text. -/
theorem failure_emits_apology_line (ticker reason : String) (h : reason ≠ "") :
    Emits (TickerResult.failure ticker reason)
      ("\u00e2\u0152 Couldn't fetch data for " ++ ticker ++ " - " ++ reason ++ "\n\n") ∧
    "\u00e2\u0152 Couldn't fetch data for " ++ ticker ++ " - " ++ reason ++ "\n\n" ≠ "" ∧
    (∀ (t : String) (c : JsNumber),
      ¬ Emits (TickerResult.failure ticker reason) (surgeLine t c) ∧
      ¬ Emits (TickerResult.failure ticker reason) (steadyLine t c) ∧
      ¬ Emits (TickerResult.failure ticker reason) (dipLine t c) ∧
      ¬ Emits (TickerResult.failure ticker reason) (declineLine t c)) ∧
    generateFallbackAnalysis [TickerResult.failure ticker reason]
      = introText
        ++ ("\u00e2\u0152 Couldn't fetch data for " ++ ticker ++ " - " ++ reason ++ "\n\n")
        ++ closingText := by
  have hl := lineOf_failure ticker reason h
  have he : failureLine ticker (some reason)
      = "\u00e2\u0152 Couldn't fetch data for " ++ ticker ++ " - " ++ reason ++ "\n\n" := rfl
  refine ⟨(emits_iff _ _).mpr (hl.trans he), he ▸ failureLine_ne_empty ticker (some reason),
    fun t c => ⟨?_, ?_, ?_, ?_⟩, ?_⟩
  · rw [emits_iff, hl]; exact failure_ne_surge _ _ _ _
  · rw [emits_iff, hl]; exact failure_ne_steady _ _ _ _
  · rw [emits_iff, hl]; exact failure_ne_dip _ _ _ _
  · rw [emits_iff, hl]; exact failure_ne_decline _ _ _ _
  · rw [generateFallbackAnalysis_eq]
    simp only [List.map_cons, List.map_nil, join_cons, hl, he]
    simp [String.join]

/-- C5 as amended, for the failure of ZZZZ with reason "No data available for
ZZZZ": the report is the introduction, the one apology line and the closing text. -/
theorem failure_emits_apology_line_witness :
    "No data available for ZZZZ" ≠ "" ∧
    generateFallbackAnalysis [TickerResult.failure "ZZZZ" "No data available for ZZZZ"]
      = introText
        ++ ("\u00e2\u0152 Couldn't fetch data for " ++ "ZZZZ" ++ " - "
            ++ "No data available for ZZZZ" ++ "\n\n")
        ++ closingText :=
  ⟨by decide,
    (failure_emits_apology_line "ZZZZ" "No data available for ZZZZ" (by decide)).2.2.2⟩

/-- C5 as stated fails for the failure `{ ticker: "ZZZZ", error: "" }`: the empty
reason is falsy, the callback emits nothing for it, and the report is the
introduction followed at once by the closing text. -/
theorem failure_with_empty_reason_emits_nothing :
    Emits (TickerResult.failure "ZZZZ" "") "" ∧
    ¬ Emits (TickerResult.failure "ZZZZ" "")
      ("\u00e2\u0152 Couldn't fetch data for " ++ "ZZZZ" ++ " - " ++ "" ++ "\n\n") ∧
    generateFallbackAnalysis [TickerResult.failure "ZZZZ" ""] = introText ++ closingText := by
  have hl := lineOf_failure_empty "ZZZZ"
  refine ⟨(emits_iff _ _).mpr hl, ?_, ?_⟩
  · rw [emits_iff, hl]
    decide
  · rw [generateFallbackAnalysis_eq]
    simp [hl, String.join]

/-- C6. A success with zero bars is as if absent: inserting it anywhere in the
input leaves the report unchanged (the function is total, so the call returns). -/
theorem success_without_bars_is_ignored (xs ys : List TickerResult) (ticker : String)
    (status : Option String) :
    generateFallbackAnalysis (xs ++ [TickerResult.success ticker [] status] ++ ys)
      = generateFallbackAnalysis (xs ++ ys) := by
  simp only [generateFallbackAnalysis_eq, join_map_append, List.map_cons, List.map_nil,
    join_cons, lineOf_success_nil]
  simp [String.join]

/-! ## `POST /api/ai-report` -/

theorem fetchTicker_ticker (ticker : String) (outcome : Except String QuoteResponse) :
    (fetchTicker ticker outcome).ticker = ticker := by
  unfold fetchTicker
  split
  · rename_i result h
    unfold tryFetchTicker at h
    split at h
    · cases h
    · split at h
      · cases h
      · split at h
        · cases h
        · split at h
          · cases h
          · split at h
            · cases h
            · cases h
              rfl
  · rfl

/-- C8. For an array of tickers the handler answers 200 with a `stockData` array
of the same length whose element `i` is the result of the per-ticker callback on
ticker `i` and the outcome of fetch `i`, and carries ticker `i`; two runs whose
fetch `i` had the same outcome have the same element `i`, whatever the other
fetches did. -/
theorem stock_data_keeps_order (apiKey startDate endDate : Option String)
    (network : Nat → Except String QuoteResponse) (tickers : List String) :
    (stockDataHandler apiKey network
        { tickers := .array tickers, startDate := startDate, endDate := endDate }).status = 200 ∧
    ∃ stockData : List TickerResult,
      sentStockData (stockDataHandler apiKey network
        { tickers := .array tickers, startDate := startDate, endDate := endDate })
        = some stockData ∧
      stockData.length = tickers.length ∧
      (∀ (i : Nat) (ticker : String), tickers[i]? = some ticker →
        stockData[i]? = some (fetchTicker ticker (network i)) ∧
        (fetchTicker ticker (network i)).ticker = ticker) ∧
      (∀ (other : Nat → Except String QuoteResponse) (stockData1 : List TickerResult),
        sentStockData (stockDataHandler apiKey other
          { tickers := .array tickers, startDate := startDate, endDate := endDate })
          = some stockData1 →
        ∀ i : Nat, other i = network i → stockData1[i]? = stockData[i]?) := by
  refine ⟨by simp [stockDataHandler, JsValue.truthy, JsValue.isArray],
    tickers.mapIdx (fun i ticker => fetchTicker ticker (network i)),
    by simp [stockDataHandler, sentStockData, JsValue.truthy, JsValue.isArray],
    by simp, fun i ticker h => ⟨by simp [h], fetchTicker_ticker _ _⟩,
    fun other stockData1 h i hi => ?_⟩
  simp only [stockDataHandler, sentStockData, JsValue.truthy, JsValue.isArray, Bool.not_true,
    Bool.or_self, Bool.false_eq_true, if_false, Option.some.injEq] at h
  subst h
  simp [hi]

/-- C10. The handler answers 400, having fetched nothing, exactly when `tickers`
is missing or is not an array; for every array, the empty one included, it
answers 200 and fetches one URL per ticker. The body `{ tickers: "AAPL" }` is
rejected with no fetch. -/
theorem stock_data_rejects_non_arrays (apiKey : Option String)
    (network : Nat → Except String QuoteResponse) (body : StockDataRequest) :
    (((stockDataHandler apiKey network body).status = 400 ∧
        (stockDataHandler apiKey network body).fetched = [])
      ↔ (body.tickers = .undefined ∨ body.tickers.isArray = false)) ∧
    ((stockDataHandler apiKey network body).status = 400 →
      (stockDataHandler apiKey network body).fetched = []) ∧
    (∀ items : List String, body.tickers = .array items →
      (stockDataHandler apiKey network body).status = 200 ∧
      (stockDataHandler apiKey network body).fetched
        = items.map (quoteUrl apiKey body.startDate body.endDate)) ∧
    stockDataHandler apiKey network
        { tickers := .string "AAPL", startDate := body.startDate, endDate := body.endDate }
      = { status := 400, body := .error "Invalid tickers provided", fetched := [] } := by
  rcases body with ⟨tickers, startDate, endDate⟩
  refine ⟨?_, ?_, ?_, ?_⟩
  · cases tickers <;> simp [stockDataHandler, JsValue.truthy, JsValue.isArray]
  · cases tickers <;> simp [stockDataHandler, JsValue.truthy, JsValue.isArray]
  · intro items h
    simp only at h
    subst h
    simp [stockDataHandler, JsValue.truthy, JsValue.isArray]
  · simp [stockDataHandler, JsValue.truthy, JsValue.isArray]

end StockPredictor
